import Mathlib

set_option linter.unusedVariables false

/-!
Verification of the bagitify incremental download-and-archive core:
a shallow embedding of the time-range partitioner, freshness oracle,
chunk fetcher, staged-archive merger and `run` orchestrator from
`src/bagitify/utils.py`, `src/bagitify/download.py` and
`src/bagitify/bagitify.py`, with theorems settling the spec claims.
-/

namespace Bagitify

/-- Embedding of Python `datetime.datetime`: six validated integer fields.
Python's constructor guarantees `1 ≤ month ≤ 12`; we keep the fields as
plain naturals and carry month-validity as a hypothesis where needed. -/
structure Datetime where
  year : Nat
  month : Nat
  day : Nat
  hour : Nat
  minute : Nat
  second : Nat
deriving DecidableEq, Repr

/-- Python datetime strict comparison: lexicographic over the six fields. -/
def dtLt (a b : Datetime) : Bool :=
  if a.year ≠ b.year then decide (a.year < b.year)
  else if a.month ≠ b.month then decide (a.month < b.month)
  else if a.day ≠ b.day then decide (a.day < b.day)
  else if a.hour ≠ b.hour then decide (a.hour < b.hour)
  else if a.minute ≠ b.minute then decide (a.minute < b.minute)
  else decide (a.second < b.second)

/-- Python datetime `<=`: strictly less or equal. -/
def dtLe (a b : Datetime) : Bool :=
  dtLt a b || decide (a = b)

/-- `utils.round_to_start_of_month`: `Datetime(day=1, month=d.month, year=d.year)`
(time-of-day fields default to zero). -/
def round_to_start_of_month (d : Datetime) : Datetime :=
  ⟨d.year, d.month, 1, 0, 0, 0⟩

/-- `utils.round_to_next_month`: first day of the following month,
rolling December into January of the next year. -/
def round_to_next_month (d : Datetime) : Datetime :=
  if d.month < 12 then ⟨d.year, d.month + 1, 1, 0, 0, 0⟩
  else ⟨d.year + 1, 1, 1, 0, 0, 0⟩

/-- The `while current_end <= end_datetime` loop of
`get_start_dates_for_date_range`, with the loop invariant
`current_end = round_to_next_month current_start` folded in
(it holds on entry and is re-established by every iteration). -/
def monthStartsLoop (current_start end_datetime : Datetime) : List Datetime :=
  if h : dtLe (round_to_next_month current_start) end_datetime = true then
    current_start :: monthStartsLoop (round_to_next_month current_start) end_datetime
  else []
termination_by (end_datetime.year + 1 - current_start.year, 13 - current_start.month)
decreasing_by
  simp only [round_to_next_month] at h ⊢
  by_cases hm : current_start.month < 12
  · simp only [if_pos hm] at h ⊢
    exact Prod.Lex.right _ (by omega)
  · simp only [if_neg hm] at h ⊢
    have hy : current_start.year + 1 ≤ end_datetime.year := by
      simp only [dtLe, dtLt, Bool.or_eq_true, decide_eq_true_eq] at h
      rcases h with h | h
      · by_cases hyy :
          ({ year := current_start.year + 1, month := 1, day := 1, hour := 0,
             minute := 0, second := 0 } : Datetime).year ≠ end_datetime.year
        · rw [if_pos hyy] at h
          simp only [decide_eq_true_eq] at h
          omega
        · dsimp only at hyy
          omega
      · rw [← h]
    exact Prod.Lex.left _ _ (by omega)

/-- `download.get_start_dates_for_date_range` (identical copy in
`bagitify.py`): round the start down to its month start, round a
non-boundary end up to the next month start, then emit month starts
while the chunk end stays within the (rounded) end. -/
def get_start_dates_for_date_range (start_datetime end_datetime : Datetime) :
    List Datetime :=
  let current_start := round_to_start_of_month start_datetime
  let end' :=
    if end_datetime ≠ round_to_start_of_month end_datetime then
      round_to_next_month end_datetime
    else end_datetime
  monthStartsLoop current_start end'

/-- Month index of a datetime: `12 * year + month`.  For valid months this
orders month starts the same way the full lexicographic order does. -/
def mIdx (d : Datetime) : Nat := 12 * d.year + d.month

/-- A datetime that is exactly the start of some month (what
`round_to_start_of_month` / `round_to_next_month` produce). -/
def IsMonthStart (d : Datetime) : Prop :=
  d.day = 1 ∧ d.hour = 0 ∧ d.minute = 0 ∧ d.second = 0

/-- Python's `datetime` constructor guarantees `1 ≤ month ≤ 12`. -/
def ValidMonth (d : Datetime) : Prop := 1 ≤ d.month ∧ d.month ≤ 12

/-- Python `max` over the two present datetimes (as in `run`). -/
def dtMax (a b : Datetime) : Datetime := if dtLt a b then b else a

/-- Python `min` over the two present datetimes (as in `run`). -/
def dtMin (a b : Datetime) : Datetime := if dtLt b a then b else a

/-- Zero-padded two-digit field of `strftime`. -/
def pad2 (n : Nat) : String := if n < 10 then "0" ++ toString n else toString n

/-- Zero-padded four-digit year of `strftime("%Y")`. -/
def pad4 (n : Nat) : String :=
  if n < 10 then "000" ++ toString n
  else if n < 100 then "00" ++ toString n
  else if n < 1000 then "0" ++ toString n
  else toString n

/-- `utils.format_datetime`: `strftime("%Y-%m-%dT%H:%M:%SZ")`. -/
def format_datetime (d : Datetime) : String :=
  pad4 d.year ++ "-" ++ pad2 d.month ++ "-" ++ pad2 d.day ++ "T" ++
    pad2 d.hour ++ ":" ++ pad2 d.minute ++ ":" ++ pad2 d.second ++ "Z"

/-- `utils.get_dataset_name_from_tabledap_url`: `url.split("/")[-1]`. -/
def get_dataset_name_from_tabledap_url (tabledap_url : String) : String :=
  (tabledap_url.splitOn "/").getLastD ""

/-- `download.gen_nc_filename`: `"<dataset>_<YYYY-MM>.nc"`. -/
def gen_nc_filename (tabledap_url : String) (start_datetime : Datetime) : String :=
  String.intercalate "_"
    [get_dataset_name_from_tabledap_url tabledap_url,
     pad4 start_datetime.year ++ "-" ++ pad2 start_datetime.month ++ ".nc"]

/-- `download.should_download_netcdf` (identical copy in `bagitify.py`).
The `existing_nc` argument abstracts the `Optional[Path]` plus what the
filesystem says about it: `none` means no path was supplied
(`existing_files_dir` was `None`), `some none` means the path exists as an
argument but `is_file()` is false, and `some (some m)` means a regular file
with modification instant `m`.  `verbose` only controls printing. -/
def should_download_netcdf (existing_nc : Option (Option Datetime))
    (force : Bool) (end_datetime : Datetime) (verbose : Bool) : Bool :=
  match existing_nc with
  | none => true
  | some none => true
  | some (some nc_mtime) =>
    if force then true
    else if dtLt nc_mtime end_datetime then true
    else false

/-- An HTTP response as the chunk fetcher sees it: status code and raw body
(bytes abstracted as characters, since the only inspection is a plain ASCII
substring test and a verbatim write-out). -/
structure Response where
  status : Nat
  body : List Char

/-- The body marker phrase recognized together with a 404 as the benign
"no data for this period" outcome. -/
def noDataMarker : List Char := "Your query produced no matching results".toList

/-- Python's substring operator `needle in haystack`. -/
def listHasInfix (needle : List Char) : List Char → Bool
  | [] => needle.isEmpty
  | c :: rest => needle.isPrefixOf (c :: rest) || listHasInfix needle rest

/-- `requests.Response.raise_for_status` raises exactly for 4xx/5xx codes. -/
def raisesForStatus (status : Nat) : Bool := decide (400 ≤ status ∧ status < 600)

/-- Observable side effects of the download-and-archive core.  `freshCheck`
records the consultation of the freshness oracle for a chunk file name;
`netGet` a remote HTTP request; the others are filesystem mutations. -/
inductive Ev where
  | freshCheck (nc_filename : String)
  | netGet (url : String)
  | fileWrite (path : String) (content : List Char)
  | mkdir (path : String)
  | rename (src dst : String)
  | removeFile (path : String)
  | chmod (path : String) (mode : Nat)
deriving DecidableEq, Repr

/-- Is an event a filesystem side effect (as opposed to a pure check or a
network read)? -/
def Ev.isFsSideEffect : Ev → Bool
  | .fileWrite _ _ => true
  | .mkdir _ => true
  | .rename _ _ => true
  | .removeFile _ => true
  | .chmod _ _ => true
  | _ => false

/-- Is an event a network request? -/
def Ev.isNet : Ev → Bool
  | .netGet _ => true
  | _ => false

/-- The chunk query URL of `download_month_netcdf`: the half-open interval
`[start, next_month(start))` against the `.ncCFMA` endpoint. -/
def gen_month_nc_url (tabledap_url : String) (start_datetime : Datetime) :
    String :=
  tabledap_url ++ ".ncCFMA?&time>=" ++ format_datetime start_datetime ++
    "&time<" ++ format_datetime (round_to_next_month start_datetime)

/-- `download.download_month_netcdf` (identical copy in `bagitify.py`) as an
event-trace function.  `existing_files_dir` is the optional freshness view of
the archive payload directory (file name ↦ mtime of the regular file, if
any); `oracle` gives the remote response for a URL.  Returns the emitted
events and the propagated error status, if `raise_for_status` raised. -/
def download_month_netcdf (tabledap_url : String) (start_datetime : Datetime)
    (destination_dir : String)
    (existing_files_dir : Option (String → Option Datetime))
    (verbose force : Bool) (oracle : String → Response) :
    List Ev × Option Nat :=
  let end_datetime := round_to_next_month start_datetime
  let month_nc_url := gen_month_nc_url tabledap_url start_datetime
  let nc_filename := gen_nc_filename tabledap_url start_datetime
  let destination_nc_path := destination_dir ++ "/" ++ nc_filename
  let existing_nc : Option (Option Datetime) :=
    existing_files_dir.map (fun dir => dir nc_filename)
  if should_download_netcdf existing_nc force end_datetime verbose = false then
    ([Ev.freshCheck nc_filename], none)
  else
    let r := oracle month_nc_url
    if r.status = 404 ∧ listHasInfix noDataMarker r.body then
      ([Ev.freshCheck nc_filename, Ev.netGet month_nc_url], none)
    else if raisesForStatus r.status then
      ([Ev.freshCheck nc_filename, Ev.netGet month_nc_url], some r.status)
    else
      ([Ev.freshCheck nc_filename, Ev.netGet month_nc_url,
        Ev.fileWrite destination_nc_path r.body], none)

/-- `download.download_netcdf_range` (identical copy in `bagitify.py`):
fetch each month chunk in order; a raised error propagates and aborts the
remaining iterations. -/
def download_netcdf_range (tabledap_url : String)
    (start_datetime end_datetime : Datetime) (destination_dir : String)
    (existing_files_dir : Option (String → Option Datetime))
    (verbose force : Bool) (oracle : String → Response) :
    List Ev × Option Nat :=
  (get_start_dates_for_date_range start_datetime end_datetime).foldl
    (fun acc month_start_datetime =>
      match acc.2 with
      | some _ => acc
      | none =>
        let r := download_month_netcdf tabledap_url month_start_datetime
          destination_dir existing_files_dir verbose force oracle
        (acc.1 ++ r.1, r.2))
    ([], none)

/-- Contents of one directory: an association list from file name to file
content, in directory-iteration order. -/
def DirList : Type := List (String × List Char)

/-- `os.rename(nc_file, data_dir / name)` at the directory-content level:
the moved entry replaces any same-named entry of the target. -/
def setEntry (dir : List (String × List Char)) (f : String × List Char) :
    List (String × List Char) :=
  dir.filter (fun p => decide (p.1 ≠ f.1)) ++ [f]

/-- The filesystem state the staged-archive merger acts on: the `bagit.txt`
marker, the files directly in the archive directory (other than the marker
and the `data` subdirectory), the payload `data` directory (the empty list
standing for an absent `data` subdirectory when the marker is absent), the
staging directory, and the permission mode of each directory. -/
structure BagFS where
  marker : Bool
  rootFiles : List (String × List Char)
  rootMode : Nat
  data : List (String × List Char)
  dataMode : Nat
  staging : List (String × List Char)
  stagingMode : Nat
  stagingPresent : Bool
deriving DecidableEq, Repr

/-- A mode whose "others" permission digit grants both read and traverse. -/
def othersCanReadTraverse (mode : Nat) : Bool :=
  decide ((mode % 8) % 2 = 1 ∧ (mode % 8) / 4 % 2 = 1)

/-- An `OSError` raised by `os.rename`: POSIX `rename(2)` onto an existing
directory succeeds only when that directory is empty, and otherwise fails
with `ENOTEMPTY`. -/
inductive OsErr where
  | notEmpty (path : String)
deriving DecidableEq, Repr

/-- The error taxonomy of `run` relevant to the claims: the same-filesystem
`ValueError`, a propagated remote-fetch failure, and a propagated
filesystem error from the merge. -/
inductive RunErr where
  | configError
  | remoteFetchError (status : Nat)
  | fsError (e : OsErr)
deriving DecidableEq, Repr

namespace Download

/-- `download.move_tmp_to_bag`: the staged-archive merger of
`src/bagitify/download.py`, which chmods the destination directory to
`0o755` after a whole-directory rename.  In the force branch the payload
directory has just been emptied file by file, so `os.rename` onto it
succeeds; in the not-a-bag branch the rename targets `bag_directory`
itself, which `os.rename` replaces only if it is empty — onto a non-empty
directory it raises `ENOTEMPTY` before any chmod, leaving every directory
unchanged.  The third component records that propagated `OSError`. -/
def move_tmp_to_bag (bag_directory tmp_destination : String) (fs : BagFS)
    (verbose force : Bool) : BagFS × List Ev × Option OsErr :=
  let bag_data_dir := bag_directory ++ "/data"
  let bag_exists := fs.marker
  if bag_exists && !force then
    ({ fs with data := fs.staging.foldl setEntry fs.data, staging := [] },
     fs.staging.map (fun nc_file =>
       Ev.rename (tmp_destination ++ "/" ++ nc_file.1)
         (bag_data_dir ++ "/" ++ nc_file.1)),
     none)
  else if bag_exists then
    ({ fs with
        data := fs.staging
        dataMode := 0o755
        staging := []
        stagingPresent := false },
     fs.data.map (fun p => Ev.removeFile (bag_data_dir ++ "/" ++ p.1)) ++
       [Ev.rename tmp_destination bag_data_dir,
        Ev.chmod bag_data_dir 0o755],
     none)
  else if fs.rootFiles = [] ∧ fs.data = [] then
    ({ fs with
        rootFiles := fs.staging
        rootMode := 0o755
        staging := []
        stagingPresent := false },
     [Ev.rename tmp_destination bag_directory,
      Ev.chmod bag_directory 0o755],
     none)
  else
    (fs, [], some (OsErr.notEmpty bag_directory))

end Download

namespace BagitifyPy

/-- `bagitify.move_tmp_to_bag`: the staged-archive merger of
`src/bagitify/bagitify.py` — the copy actually called by `run` via
`download_data_for_bag`.  Identical to the `download.py` version (including
the `ENOTEMPTY` failure of the whole-directory rename onto a non-empty
marker-less archive directory) except that it performs no chmod after the
rename, so the renamed directory keeps the staging directory's mode. -/
def move_tmp_to_bag (bag_directory tmp_destination : String) (fs : BagFS)
    (verbose force : Bool) : BagFS × List Ev × Option OsErr :=
  let bag_data_dir := bag_directory ++ "/data"
  let bag_exists := fs.marker
  if bag_exists && !force then
    ({ fs with data := fs.staging.foldl setEntry fs.data, staging := [] },
     fs.staging.map (fun nc_file =>
       Ev.rename (tmp_destination ++ "/" ++ nc_file.1)
         (bag_data_dir ++ "/" ++ nc_file.1)),
     none)
  else if bag_exists then
    ({ fs with
        data := fs.staging
        dataMode := fs.stagingMode
        staging := []
        stagingPresent := false },
     fs.data.map (fun p => Ev.removeFile (bag_data_dir ++ "/" ++ p.1)) ++
       [Ev.rename tmp_destination bag_data_dir],
     none)
  else if fs.rootFiles = [] ∧ fs.data = [] then
    ({ fs with
        rootFiles := fs.staging
        rootMode := fs.stagingMode
        staging := []
        stagingPresent := false },
     [Ev.rename tmp_destination bag_directory],
     none)
  else
    (fs, [], some (OsErr.notEmpty bag_directory))

/-- `bagitify.download_data_for_bag`: create a fresh staging directory,
download the range into it, then merge into the archive.  The freshness view
`mtimes` of the payload directory is passed exactly when the archive is
already a recognized bag. -/
def download_data_for_bag (tabledap_url : String)
    (start_datetime end_datetime : Datetime)
    (bag_directory tmp_parent tmpName : String) (fs : BagFS)
    (mtimes : String → Option Datetime) (verbose force : Bool)
    (oracle : String → Response) : BagFS × List Ev × Option RunErr :=
  let tmp_destination := tmp_parent ++ "/" ++ tmpName
  let existing_files_dir : Option (String → Option Datetime) :=
    if fs.marker then some mtimes else none
  let dl := download_netcdf_range tabledap_url start_datetime end_datetime
    tmp_destination existing_files_dir verbose force oracle
  match dl.2 with
  | some st =>
    (fs, Ev.mkdir tmp_destination :: dl.1,
     some (RunErr.remoteFetchError st))
  | none =>
    let m := move_tmp_to_bag bag_directory tmp_destination fs verbose force
    match m.2.2 with
    | some e =>
      (m.1, Ev.mkdir tmp_destination :: (dl.1 ++ m.2.1),
       some (RunErr.fsError e))
    | none =>
      (m.1, Ev.mkdir tmp_destination :: (dl.1 ++ m.2.1), none)

end BagitifyPy

/-- `utils.are_same_fs`: compare the `st_dev` of the two paths, given the
device table of the host. -/
def are_same_fs (stDev : String → Nat) (path1 path2 : String) : Bool :=
  stDev path1 == stDev path2

/-- Modelled from the spec: the external BagIt library collaborator
(`bagit.make_bag` / `bagit.Bag.save` behind `bag_it_up`), which is not part
of this repository.  Creating a bag moves the directory's payload files into
a fresh `data/` subdirectory, writes the `bagit.txt` marker and the
manifests; updating an existing bag only rewrites metadata and manifests,
leaving the payload directory contents unchanged. -/
def bag_it_up (fs : BagFS) (create : Bool) : BagFS :=
  if create then
    { fs with
        marker := true
        data := fs.rootFiles
        dataMode := fs.rootMode
        rootFiles := [] }
  else fs

/-- The host environment `run` interacts with: device numbers, prior
existence of the two directories, the remote dataset's available time range
(the parsing of the two-timestamp response is external), the archive state,
the freshness view of the payload directory, and the network oracle. -/
structure RunEnv where
  stDev : String → Nat
  bagDirExists : Bool
  tmpParentExists : Bool
  remoteRange : Datetime × Datetime
  fs : BagFS
  mtimes : String → Option Datetime
  oracle : String → Response

/-- `bagitify.run` as an event-trace function, with the bag directory and
staging parent already resolved to concrete paths (the defaulting in the
source is pure string computation from the dataset name and working
directory).  `tmpName` is the name `tempfile` picks for the staging
directory. -/
def run (tabledap_url0 bag_directory tmp_parent tmpName : String)
    (requested_start_datetime requested_end_datetime : Option Datetime)
    (verbose force : Bool) (env : RunEnv) : List Ev × Option RunErr :=
  let ev0 :=
    (if env.bagDirExists then [] else [Ev.mkdir bag_directory]) ++
    (if env.tmpParentExists then [] else [Ev.mkdir tmp_parent])
  if are_same_fs env.stDev tmp_parent bag_directory = false then
    (ev0, some RunErr.configError)
  else
    let url1 := tabledap_url0.toLower
    let tabledap_url :=
      if url1.endsWith ".html" then url1.dropRight 5 else url1
    let start_end_url := tabledap_url ++ ".csv0?time&orderByMinMax(%22time%22)"
    let data_start_datetime := env.remoteRange.1
    let data_end_datetime := env.remoteRange.2
    let bag_start_datetime := match requested_start_datetime with
      | none => data_start_datetime
      | some r => dtMax r data_start_datetime
    let bag_end_datetime := match requested_end_datetime with
      | none => data_end_datetime
      | some r => dtMin r data_end_datetime
    let dl := BagitifyPy.download_data_for_bag tabledap_url
      bag_start_datetime bag_end_datetime bag_directory tmp_parent tmpName
      env.fs env.mtimes verbose force env.oracle
    match dl.2.2 with
    | some err =>
      (ev0 ++ Ev.netGet start_end_url :: dl.2.1, some err)
    | none =>
      let metadata_url :=
        (tabledap_url.replace "/tabledap/" "/info/") ++ "/index.json"
      (ev0 ++ Ev.netGet start_end_url :: (dl.2.1 ++ [Ev.netGet metadata_url]),
       none)

/-! ## Helper lemmas -/

/-- Defining equation of the partitioner loop. -/
theorem monthStartsLoop_eq (cs E : Datetime) :
    monthStartsLoop cs E =
      if dtLe (round_to_next_month cs) E = true then
        cs :: monthStartsLoop (round_to_next_month cs) E
      else [] := by
  rw [monthStartsLoop]
  split <;> rfl

/-- `dtLe` between two month starts, in closed boolean form. -/
theorem dtLe_mk (ay am yy bm : Nat) :
    dtLe ⟨ay, am, 1, 0, 0, 0⟩ ⟨yy, bm, 1, 0, 0, 0⟩ =
      (decide (ay < yy) || (decide (ay = yy) && decide (am ≤ bm))) := by
  by_cases hy : ay = yy
  · by_cases hm : am = bm
    · subst hy; subst hm
      simp [dtLe, dtLt]
    · subst hy
      simp only [dtLe, dtLt, ne_eq, not_true_eq_false, if_false,
        Datetime.mk.injEq]
      simp [hm]
      omega
  · simp only [dtLe, dtLt, ne_eq, hy, not_false_eq_true, if_true,
      Datetime.mk.injEq]
    simp [hy]

/-- Between month starts with valid months, the lexicographic order agrees
with the month-index order. -/
theorem dtLe_monthStart_iff {a b : Datetime} (ha : IsMonthStart a)
    (hb : IsMonthStart b) (hva : ValidMonth a) (hvb : ValidMonth b) :
    (dtLe a b = true) ↔ mIdx a ≤ mIdx b := by
  obtain ⟨ha1, ha2, ha3, ha4⟩ := ha
  obtain ⟨hb1, hb2, hb3, hb4⟩ := hb
  obtain ⟨hva1, hva2⟩ := hva
  obtain ⟨hvb1, hvb2⟩ := hvb
  cases a with | mk ay am ad ah ami asec =>
  cases b with | mk yy bm bd bh bmi bsec =>
  simp only at ha1 ha2 ha3 ha4 hb1 hb2 hb3 hb4 hva1 hva2 hvb1 hvb2
  subst ha1; subst ha2; subst ha3; subst ha4
  subst hb1; subst hb2; subst hb3; subst hb4
  rw [dtLe_mk]
  simp only [mIdx, Bool.or_eq_true, Bool.and_eq_true, decide_eq_true_eq]
  omega

/-- A strict datetime comparison bounds the month indices, given valid
months. -/
theorem mIdx_le_of_dtLt {a b : Datetime} (h : dtLt a b = true)
    (hva : ValidMonth a) (hvb : ValidMonth b) : mIdx a ≤ mIdx b := by
  obtain ⟨hva1, hva2⟩ := hva
  obtain ⟨hvb1, hvb2⟩ := hvb
  cases a with | mk ay am ad ah ami asec =>
  cases b with | mk yy bm bd bh bmi bsec =>
  simp only at hva1 hva2 hvb1 hvb2
  simp only [dtLt, ne_eq] at h
  simp only [mIdx]
  split_ifs at h <;> simp only [decide_eq_true_eq] at h <;> omega

/-- `round_to_next_month` yields a month start. -/
theorem isMonthStart_round_next (d : Datetime) :
    IsMonthStart (round_to_next_month d) := by
  unfold round_to_next_month IsMonthStart
  split <;> exact ⟨rfl, rfl, rfl, rfl⟩

/-- `round_to_next_month` yields a valid month. -/
theorem validMonth_round_next (d : Datetime) :
    ValidMonth (round_to_next_month d) := by
  unfold round_to_next_month ValidMonth
  split <;> dsimp only <;> omega

/-- For a valid month, `round_to_next_month` bumps the month index by one. -/
theorem mIdx_round_next {d : Datetime} (h : ValidMonth d) :
    mIdx (round_to_next_month d) = mIdx d + 1 := by
  obtain ⟨h1, h2⟩ := h
  unfold round_to_next_month mIdx
  split <;> dsimp only <;> omega

/-- `round_to_start_of_month` yields a month start. -/
theorem isMonthStart_round_start (d : Datetime) :
    IsMonthStart (round_to_start_of_month d) :=
  ⟨rfl, rfl, rfl, rfl⟩

/-- `round_to_start_of_month` keeps the month and year. -/
theorem mIdx_round_start (d : Datetime) :
    mIdx (round_to_start_of_month d) = mIdx d := rfl

/-- `round_to_start_of_month` keeps month validity. -/
theorem validMonth_round_start {d : Datetime} (h : ValidMonth d) :
    ValidMonth (round_to_start_of_month d) := h

/-- Month starts with valid months and equal month index are equal. -/
theorem monthStart_eq_of_mIdx_eq {a b : Datetime} (ha : IsMonthStart a)
    (hb : IsMonthStart b) (hva : ValidMonth a) (hvb : ValidMonth b)
    (h : mIdx a = mIdx b) : a = b := by
  obtain ⟨ha1, ha2, ha3, ha4⟩ := ha
  obtain ⟨hb1, hb2, hb3, hb4⟩ := hb
  obtain ⟨hva1, hva2⟩ := hva
  obtain ⟨hvb1, hvb2⟩ := hvb
  cases a with | mk ay am ad ah ami asec =>
  cases b with | mk yy bm bd bh bmi bsec =>
  simp only at ha1 ha2 ha3 ha4 hb1 hb2 hb3 hb4 hva1 hva2 hvb1 hvb2
  simp only [mIdx] at h
  simp only [Datetime.mk.injEq]
  omega

/-- Completeness of the partitioner loop: every month start between the
current start and one month short of the (month-start) bound is emitted. -/
theorem monthStartsLoop_mem_of {cs E d : Datetime} (hcs : IsMonthStart cs)
    (hvcs : ValidMonth cs) (hd : IsMonthStart d) (hvd : ValidMonth d)
    (hE : IsMonthStart E) (hvE : ValidMonth E) (hle : mIdx cs ≤ mIdx d)
    (hend : mIdx d + 1 ≤ mIdx E) : d ∈ monthStartsLoop cs E := by
  generalize hn : mIdx d - mIdx cs = n
  induction n generalizing cs with
  | zero =>
    have heq : cs = d :=
      monthStart_eq_of_mIdx_eq hcs hd hvcs hvd (by omega)
    subst heq
    rw [monthStartsLoop_eq, if_pos]
    · exact List.mem_cons_self _ _
    · rw [dtLe_monthStart_iff (isMonthStart_round_next cs)
        hE (validMonth_round_next cs) hvE, mIdx_round_next hvcs]
      omega
  | succ n ih =>
    rw [monthStartsLoop_eq, if_pos]
    · refine List.mem_cons_of_mem _ ?_
      refine ih (isMonthStart_round_next cs) (validMonth_round_next cs) ?_ ?_
      · rw [mIdx_round_next hvcs]; omega
      · rw [mIdx_round_next hvcs]; omega
    · rw [dtLe_monthStart_iff (isMonthStart_round_next cs)
        hE (validMonth_round_next cs) hvE, mIdx_round_next hvcs]
      omega

/-- Soundness of the partitioner loop: every emitted instant is a month
start with a valid month, provided the initial one is. -/
theorem monthStartsLoop_valid (cs E : Datetime) :
    IsMonthStart cs → ValidMonth cs →
      ∀ d ∈ monthStartsLoop cs E, IsMonthStart d ∧ ValidMonth d := by
  induction cs, E using monthStartsLoop.induct with
  | case1 cs E hg ih =>
    intro h1 h2 d hd
    rw [monthStartsLoop_eq, if_pos hg] at hd
    rcases List.mem_cons.mp hd with rfl | hd
    · exact ⟨h1, h2⟩
    · exact ih (isMonthStart_round_next _) (validMonth_round_next _) d hd
  | case2 cs E hg =>
    intro h1 h2 d hd
    rw [monthStartsLoop_eq, if_neg hg] at hd
    simp at hd

/-- A name that is not among the keys looks up to nothing. -/
theorem lookup_eq_none_of_not_mem_keys {l : List (String × List Char)}
    {n : String} (h : n ∉ l.map Prod.fst) : l.lookup n = none := by
  induction l with
  | nil => rfl
  | cons p t ih =>
    simp only [List.map_cons, List.mem_cons] at h
    push_neg at h
    simp only [List.lookup, beq_eq_false_iff_ne.mpr h.1]
    exact ih h.2

/-- Looking up in a directory after one `os.rename` into it. -/
theorem lookup_setEntry (dir : List (String × List Char))
    (f : String × List Char) (n : String) :
    (setEntry dir f).lookup n = if n = f.1 then some f.2 else dir.lookup n := by
  induction dir with
  | nil =>
    by_cases hn : n = f.1
    · simp [setEntry, List.lookup, hn]
    · simp [setEntry, List.lookup, beq_eq_false_iff_ne.mpr hn, hn]
  | cons p t ih =>
    by_cases hp : p.1 = f.1
    · have hse : setEntry (p :: t) f = setEntry t f := by
        simp [setEntry, List.filter_cons, hp]
      rw [hse, ih]
      by_cases hn : n = f.1
      · rw [if_pos hn, if_pos hn]
      · rw [if_neg hn, if_neg hn]
        have hnp : n ≠ p.1 := by rw [hp]; exact hn
        simp [List.lookup, beq_eq_false_iff_ne.mpr hnp]
    · have hse : setEntry (p :: t) f = p :: setEntry t f := by
        simp [setEntry, List.filter_cons, hp]
      rw [hse]
      by_cases hn : n = p.1
      · have hnf : n ≠ f.1 := by rw [hn]; exact hp
        rw [if_neg hnf]
        simp [List.lookup, hn]
      · simp only [List.lookup, beq_eq_false_iff_ne.mpr hn]
        exact ih

/-- Looking up in the payload directory after the file-by-file merge loop:
a staged entry wins, any other name keeps its old binding. -/
theorem lookup_foldl_setEntry (staging : List (String × List Char))
    (dir : List (String × List Char))
    (hnd : (staging.map Prod.fst).Nodup) (n : String) :
    (staging.foldl setEntry dir).lookup n =
      match staging.lookup n with
      | some c => some c
      | none => dir.lookup n := by
  induction staging generalizing dir with
  | nil => rfl
  | cons f t ih =>
    simp only [List.map_cons, List.nodup_cons] at hnd
    simp only [List.foldl_cons]
    rw [ih _ hnd.2]
    by_cases hn : n = f.1
    · have ht : t.lookup n = none := by
        apply lookup_eq_none_of_not_mem_keys
        rw [hn]; exact hnd.1
      have hf : (f :: t).lookup n = some f.2 := by
        simp [List.lookup, hn]
      rw [ht, hf, lookup_setEntry, if_pos hn]
    · have hf : (f :: t).lookup n = t.lookup n := by
        simp [List.lookup, beq_eq_false_iff_ne.mpr hn]
      rw [hf, lookup_setEntry, if_neg hn]

/-! ## Claim theorems -/

/-- C1: merging into an already-recognized archive with `force=false` moves
each staged file into the payload directory individually (one `os.rename`
per file, in staging-iteration order); a staged file replaces a same-named
existing file, a pre-existing file whose name does not occur in staging
keeps its old content, and the payload directory afterwards holds exactly
the union of the pre-existing and the staged files.  Proved for both copies
of `move_tmp_to_bag` (`download.py` and `bagitify.py`). -/
theorem claim_C1_merge_no_force (bag_directory tmp_destination : String)
    (fs : BagFS) (verbose : Bool) (hmarker : fs.marker = true)
    (hnd : (fs.staging.map Prod.fst).Nodup) (n : String) :
    ((Download.move_tmp_to_bag bag_directory tmp_destination fs
        verbose false).1.data.lookup n =
      (match fs.staging.lookup n with
       | some c => some c
       | none => fs.data.lookup n)) ∧
    ((BagitifyPy.move_tmp_to_bag bag_directory tmp_destination fs
        verbose false).1.data.lookup n =
      (match fs.staging.lookup n with
       | some c => some c
       | none => fs.data.lookup n)) ∧
    (n ∉ fs.staging.map Prod.fst →
      (Download.move_tmp_to_bag bag_directory tmp_destination fs
        verbose false).1.data.lookup n = fs.data.lookup n) ∧
    ((Download.move_tmp_to_bag bag_directory tmp_destination fs
        verbose false).2.1 =
      fs.staging.map (fun nc_file =>
        Ev.rename (tmp_destination ++ "/" ++ nc_file.1)
          (bag_directory ++ "/data" ++ "/" ++ nc_file.1))) ∧
    ((Download.move_tmp_to_bag bag_directory tmp_destination fs
        verbose false).2.2 = none) ∧
    ((BagitifyPy.move_tmp_to_bag bag_directory tmp_destination fs
        verbose false).2.2 = none) := by
  have hD : (Download.move_tmp_to_bag bag_directory tmp_destination fs
      verbose false).1.data = fs.staging.foldl setEntry fs.data := by
    simp [Download.move_tmp_to_bag, hmarker]
  have hB : (BagitifyPy.move_tmp_to_bag bag_directory tmp_destination fs
      verbose false).1.data = fs.staging.foldl setEntry fs.data := by
    simp [BagitifyPy.move_tmp_to_bag, hmarker]
  refine ⟨?_, ?_, ?_, ?_, ?_, ?_⟩
  · rw [hD, lookup_foldl_setEntry _ _ hnd]
  · rw [hB, lookup_foldl_setEntry _ _ hnd]
  · intro hmem
    rw [hD, lookup_foldl_setEntry _ _ hnd,
      lookup_eq_none_of_not_mem_keys hmem]
  · simp [Download.move_tmp_to_bag, hmarker]
  · simp [Download.move_tmp_to_bag, hmarker]
  · simp [BagitifyPy.move_tmp_to_bag, hmarker]

/-- Witness for C1 at a concrete state: pre-existing `A.nc` is untouched
after merging a staging directory holding only `B.nc`. -/
theorem claim_C1_merge_no_force_witness :
    (Download.move_tmp_to_bag "b" "t"
      ⟨true, [], 493, [("A.nc", ['a'])], 493, [("B.nc", ['b'])], 448, true⟩
      false false).1.data.lookup "A.nc" = some ['a'] := by
  have h := (claim_C1_merge_no_force "b" "t"
    ⟨true, [], 493, [("A.nc", ['a'])], 493, [("B.nc", ['b'])], 448, true⟩
    false rfl (by decide) "A.nc").1
  rw [h]
  rfl

/-- C2: merging into an already-recognized archive with `force=true` first
removes every existing payload file, then renames the staging directory
over the payload directory; afterwards the payload directory holds exactly
the staged files and no pre-existing file survives.  Proved for both copies
of `move_tmp_to_bag`. -/
theorem claim_C2_merge_force (bag_directory tmp_destination : String)
    (fs : BagFS) (verbose : Bool) (hmarker : fs.marker = true) :
    ((Download.move_tmp_to_bag bag_directory tmp_destination fs
        verbose true).1.data = fs.staging) ∧
    ((BagitifyPy.move_tmp_to_bag bag_directory tmp_destination fs
        verbose true).1.data = fs.staging) ∧
    ((Download.move_tmp_to_bag bag_directory tmp_destination fs
        verbose true).2.1 =
      fs.data.map (fun p =>
          Ev.removeFile (bag_directory ++ "/data" ++ "/" ++ p.1)) ++
        [Ev.rename tmp_destination (bag_directory ++ "/data"),
         Ev.chmod (bag_directory ++ "/data") 0o755]) ∧
    ((BagitifyPy.move_tmp_to_bag bag_directory tmp_destination fs
        verbose true).2.1 =
      fs.data.map (fun p =>
          Ev.removeFile (bag_directory ++ "/data" ++ "/" ++ p.1)) ++
        [Ev.rename tmp_destination (bag_directory ++ "/data")]) ∧
    ((Download.move_tmp_to_bag bag_directory tmp_destination fs
        verbose true).2.2 = none) ∧
    ((BagitifyPy.move_tmp_to_bag bag_directory tmp_destination fs
        verbose true).2.2 = none) := by
  refine ⟨?_, ?_, ?_, ?_, ?_, ?_⟩ <;>
    simp [Download.move_tmp_to_bag, BagitifyPy.move_tmp_to_bag, hmarker]

/-- Witness for C2 at a concrete state: pre-existing `A.nc` is gone, only
staged `B.nc` remains. -/
theorem claim_C2_merge_force_witness :
    (Download.move_tmp_to_bag "b" "t"
      ⟨true, [], 493, [("A.nc", ['a'])], 493, [("B.nc", ['b'])], 448, true⟩
      false true).1.data = [("B.nc", ['b'])] :=
  (claim_C2_merge_force "b" "t"
    ⟨true, [], 493, [("A.nc", ['a'])], 493, [("B.nc", ['b'])], 448, true⟩
    false rfl).1

/-- Counterexample to C3 as stated: a marker-less archive directory that
already holds a file (reachable when an earlier run merged its payload but
failed before finalization wrote `bagit.txt`) makes the whole-directory
`os.rename` fail with `ENOTEMPTY`: no rename is performed, the filesystem
is left unchanged, the error propagates, and the payload never becomes the
staged files — both copies of `move_tmp_to_bag` behave this way. -/
theorem claim_C3_counterexample :
    (Download.move_tmp_to_bag "bag" "tmp"
      ⟨false, [("old.nc", ['o'])], 493, [], 493, [("B.nc", ['b'])], 448,
       true⟩ false false) =
      (⟨false, [("old.nc", ['o'])], 493, [], 493, [("B.nc", ['b'])], 448,
        true⟩, [], some (OsErr.notEmpty "bag")) ∧
    (BagitifyPy.move_tmp_to_bag "bag" "tmp"
      ⟨false, [("old.nc", ['o'])], 493, [], 493, [("B.nc", ['b'])], 448,
       true⟩ false false) =
      (⟨false, [("old.nc", ['o'])], 493, [], 493, [("B.nc", ['b'])], 448,
        true⟩, [], some (OsErr.notEmpty "bag")) := by
  constructor <;> rfl

/-- C3 as amended: merging into a directory that is not yet a recognized
archive and is empty — as it is when `run` has just created it — performs,
for either value of `force`, a single whole-directory rename of the staging
directory (no per-file operation, no removal, no error); after finalization
by the external BagIt collaborator the payload directory `data/` holds
exactly the staged files and the marker is present.  When the marker-less
directory is not empty, the rename raises `ENOTEMPTY` and nothing is
merged.  Proved for both copies of `move_tmp_to_bag`. -/
theorem claim_C3_merge_new_archive (bag_directory tmp_destination : String)
    (fs : BagFS) (verbose force : Bool) (hmarker : fs.marker = false) :
    (fs.rootFiles = [] → fs.data = [] →
      ((Download.move_tmp_to_bag bag_directory tmp_destination fs
          verbose force).2.1 =
        [Ev.rename tmp_destination bag_directory,
         Ev.chmod bag_directory 0o755]) ∧
      ((BagitifyPy.move_tmp_to_bag bag_directory tmp_destination fs
          verbose force).2.1 = [Ev.rename tmp_destination bag_directory]) ∧
      ((Download.move_tmp_to_bag bag_directory tmp_destination fs
          verbose force).2.2 = none) ∧
      ((BagitifyPy.move_tmp_to_bag bag_directory tmp_destination fs
          verbose force).2.2 = none) ∧
      ((Download.move_tmp_to_bag bag_directory tmp_destination fs
          verbose force).1.marker = false) ∧
      ((BagitifyPy.move_tmp_to_bag bag_directory tmp_destination fs
          verbose force).1.marker = false) ∧
      ((bag_it_up (Download.move_tmp_to_bag bag_directory tmp_destination
          fs verbose force).1 true).data = fs.staging) ∧
      ((bag_it_up (Download.move_tmp_to_bag bag_directory tmp_destination
          fs verbose force).1 true).marker = true) ∧
      ((bag_it_up (BagitifyPy.move_tmp_to_bag bag_directory tmp_destination
          fs verbose force).1 true).data = fs.staging) ∧
      ((bag_it_up (BagitifyPy.move_tmp_to_bag bag_directory tmp_destination
          fs verbose force).1 true).marker = true)) ∧
    (¬(fs.rootFiles = [] ∧ fs.data = []) →
      (Download.move_tmp_to_bag bag_directory tmp_destination fs
          verbose force =
        (fs, [], some (OsErr.notEmpty bag_directory))) ∧
      (BagitifyPy.move_tmp_to_bag bag_directory tmp_destination fs
          verbose force =
        (fs, [], some (OsErr.notEmpty bag_directory)))) := by
  constructor
  · intro hroot hdata
    refine ⟨?_, ?_, ?_, ?_, ?_, ?_, ?_, ?_, ?_, ?_⟩ <;>
      simp [Download.move_tmp_to_bag, BagitifyPy.move_tmp_to_bag, bag_it_up,
        hmarker, hroot, hdata]
  · intro hne
    constructor <;>
      simp [Download.move_tmp_to_bag, BagitifyPy.move_tmp_to_bag, hmarker,
        hne]

/-- Witness for C3's amended statement at a concrete state: two staged
files end up as exactly the payload of the finalized new archive. -/
theorem claim_C3_merge_new_archive_witness :
    (bag_it_up (BagitifyPy.move_tmp_to_bag "b" "t"
      ⟨false, [], 493, [], 493, [("A.nc", ['a']), ("B.nc", ['b'])], 448, true⟩
      false false).1 true).data = [("A.nc", ['a']), ("B.nc", ['b'])] :=
  ((claim_C3_merge_new_archive "b" "t"
    ⟨false, [], 493, [], 493, [("A.nc", ['a']), ("B.nc", ['b'])], 448, true⟩
    false false rfl).1 rfl rfl).2.2.2.2.2.2.2.2.1

/-- C5: the freshness oracle requires a fetch exactly when the file is
absent, or downloads are forced, or the file's modification instant is
earlier than the chunk's end instant; in particular a file at least as new
as the chunk end is kept under `force=false`, and `force=true` always
fetches. -/
theorem claim_C5_freshness (existing_nc : Option (Option Datetime))
    (force verbose : Bool) (end_datetime : Datetime) :
    (should_download_netcdf existing_nc force end_datetime verbose = true ↔
      (existing_nc = none ∨ existing_nc = some none ∨ force = true ∨
        (∃ m, existing_nc = some (some m) ∧ dtLt m end_datetime = true))) ∧
    (∀ m, dtLt m end_datetime = false →
      should_download_netcdf (some (some m)) false end_datetime verbose =
        false) ∧
    (should_download_netcdf existing_nc true end_datetime verbose = true) := by
  refine ⟨?_, ?_, ?_⟩
  · match existing_nc with
    | none => simp [should_download_netcdf]
    | some none => simp [should_download_netcdf]
    | some (some m) =>
      simp only [should_download_netcdf]
      cases force with
      | true => simp
      | false =>
        by_cases hlt : dtLt m end_datetime = true
        · simp [hlt]
        · simp [hlt]
  · intro m h
    simp [should_download_netcdf, h]
  · match existing_nc with
    | none => rfl
    | some none => rfl
    | some (some m) => simp [should_download_netcdf]

/-- Witness for C5 at a concrete input: a file whose mtime equals the chunk
end is kept under `force=false`. -/
theorem claim_C5_freshness_witness :
    should_download_netcdf (some (some ⟨2023, 2, 1, 0, 0, 0⟩)) false
      ⟨2023, 2, 1, 0, 0, 0⟩ false = false :=
  (claim_C5_freshness (some (some ⟨2023, 2, 1, 0, 0, 0⟩)) false false
    ⟨2023, 2, 1, 0, 0, 0⟩).2.1 ⟨2023, 2, 1, 0, 0, 0⟩ (by decide)

/-- C6: for a chunk whose freshness check says no fetch is needed (an
existing file is present, `force=false`, and its modification instant is
not earlier than the chunk end), `download_month_netcdf` issues no remote
request and writes no file; and for every input whatsoever the first thing
it does is consult the freshness oracle (the trace starts with the
`freshCheck` event, before any network activity). -/
theorem claim_C6_fresh_skip (tabledap_url : String)
    (start_datetime : Datetime) (destination_dir : String)
    (dirMap : String → Option Datetime) (verbose : Bool)
    (oracle : String → Response) (m : Datetime)
    (hm : dirMap (gen_nc_filename tabledap_url start_datetime) = some m)
    (hfresh : dtLt m (round_to_next_month start_datetime) = false) :
    (download_month_netcdf tabledap_url start_datetime destination_dir
        (some dirMap) verbose false oracle =
      ([Ev.freshCheck (gen_nc_filename tabledap_url start_datetime)],
       none)) ∧
    (∀ (existing : Option (String → Option Datetime)) (force : Bool)
        (oracle' : String → Response),
      (download_month_netcdf tabledap_url start_datetime destination_dir
          existing verbose force oracle').1.head? =
        some (Ev.freshCheck (gen_nc_filename tabledap_url start_datetime))) := by
  constructor
  · simp [download_month_netcdf, should_download_netcdf, hm, hfresh]
  · intro existing force oracle'
    simp only [download_month_netcdf]
    split_ifs <;> rfl

/-- Witness for C6 at a concrete input: existing file as new as the chunk
end, no force — the trace is the bare freshness consultation. -/
theorem claim_C6_fresh_skip_witness :
    download_month_netcdf "u" ⟨2023, 1, 1, 0, 0, 0⟩ "d"
      (some (fun _ => some ⟨2023, 2, 1, 0, 0, 0⟩)) false false
      (fun _ => ⟨200, []⟩) =
      ([Ev.freshCheck (gen_nc_filename "u" ⟨2023, 1, 1, 0, 0, 0⟩)], none) :=
  (claim_C6_fresh_skip "u" ⟨2023, 1, 1, 0, 0, 0⟩ "d"
    (fun _ => some ⟨2023, 2, 1, 0, 0, 0⟩) false (fun _ => ⟨200, []⟩)
    ⟨2023, 2, 1, 0, 0, 0⟩ rfl (by decide)).1

/-- C7: given that the freshness oracle required a fetch, the chunk fetch
has exactly three outcomes.  A 404 whose body contains the marker phrase
writes no file and raises no error; any other status for which
`raise_for_status` raises (4xx/5xx) propagates that status as an error with
no file written; otherwise the full response body is written to the
deterministic destination file name. -/
theorem claim_C7_fetch_outcomes (tabledap_url : String)
    (start_datetime : Datetime) (destination_dir : String)
    (existing_files_dir : Option (String → Option Datetime))
    (verbose force : Bool) (oracle : String → Response)
    (hfetch : should_download_netcdf
      (existing_files_dir.map (fun dir =>
        dir (gen_nc_filename tabledap_url start_datetime)))
      force (round_to_next_month start_datetime) verbose = true) :
    (((oracle (gen_month_nc_url tabledap_url start_datetime)).status = 404 ∧
      listHasInfix noDataMarker
        (oracle (gen_month_nc_url tabledap_url start_datetime)).body = true) →
      download_month_netcdf tabledap_url start_datetime destination_dir
          existing_files_dir verbose force oracle =
        ([Ev.freshCheck (gen_nc_filename tabledap_url start_datetime),
          Ev.netGet (gen_month_nc_url tabledap_url start_datetime)],
         none)) ∧
    (¬((oracle (gen_month_nc_url tabledap_url start_datetime)).status = 404 ∧
      listHasInfix noDataMarker
        (oracle (gen_month_nc_url tabledap_url start_datetime)).body = true) →
      raisesForStatus
        (oracle (gen_month_nc_url tabledap_url start_datetime)).status =
        true →
      download_month_netcdf tabledap_url start_datetime destination_dir
          existing_files_dir verbose force oracle =
        ([Ev.freshCheck (gen_nc_filename tabledap_url start_datetime),
          Ev.netGet (gen_month_nc_url tabledap_url start_datetime)],
         some (oracle (gen_month_nc_url tabledap_url start_datetime)).status)) ∧
    (¬((oracle (gen_month_nc_url tabledap_url start_datetime)).status = 404 ∧
      listHasInfix noDataMarker
        (oracle (gen_month_nc_url tabledap_url start_datetime)).body = true) →
      raisesForStatus
        (oracle (gen_month_nc_url tabledap_url start_datetime)).status =
        false →
      download_month_netcdf tabledap_url start_datetime destination_dir
          existing_files_dir verbose force oracle =
        ([Ev.freshCheck (gen_nc_filename tabledap_url start_datetime),
          Ev.netGet (gen_month_nc_url tabledap_url start_datetime),
          Ev.fileWrite
            (destination_dir ++ "/" ++
              gen_nc_filename tabledap_url start_datetime)
            (oracle (gen_month_nc_url tabledap_url start_datetime)).body],
         none)) := by
  refine ⟨?_, ?_, ?_⟩
  · intro h1
    simp [download_month_netcdf, hfetch, h1]
  · intro h1 h2
    simp [download_month_netcdf, hfetch, h1, h2]
  · intro h1 h2
    simp [download_month_netcdf, hfetch, h1, h2]

/-- Witness for C7 at a concrete input: the recognized 404 plus marker
phrase yields no write and no error. -/
theorem claim_C7_fetch_outcomes_witness :
    download_month_netcdf "u" ⟨2023, 1, 1, 0, 0, 0⟩ "d" none false false
      (fun _ => ⟨404, noDataMarker⟩) =
      ([Ev.freshCheck (gen_nc_filename "u" ⟨2023, 1, 1, 0, 0, 0⟩),
        Ev.netGet (gen_month_nc_url "u" ⟨2023, 1, 1, 0, 0, 0⟩)], none) :=
  (claim_C7_fetch_outcomes "u" ⟨2023, 1, 1, 0, 0, 0⟩ "d" none false false
    (fun _ => ⟨404, noDataMarker⟩) rfl).1 ⟨rfl, by decide⟩

/-- C4: the partitioner rounds the start down to its month start and rounds
a non-boundary end up to the next month start: the three test vectors from
the spec evaluate as stated; and for every range whose month-aligned
start is at or before December of year `y` while its rounded end covers
January of year `y+1`, the output contains December 1 of year `y` and
January 1 of year `y+1`; every emitted instant has a valid month (never a
month-13 instant). -/
theorem claim_C4_partitioner :
    (get_start_dates_for_date_range ⟨2023, 3, 22, 0, 0, 0⟩
        ⟨2023, 6, 19, 0, 0, 0⟩ =
      [⟨2023, 3, 1, 0, 0, 0⟩, ⟨2023, 4, 1, 0, 0, 0⟩, ⟨2023, 5, 1, 0, 0, 0⟩,
       ⟨2023, 6, 1, 0, 0, 0⟩]) ∧
    (get_start_dates_for_date_range ⟨2023, 11, 1, 0, 0, 0⟩
        ⟨2024, 4, 1, 0, 0, 0⟩ =
      [⟨2023, 11, 1, 0, 0, 0⟩, ⟨2023, 12, 1, 0, 0, 0⟩, ⟨2024, 1, 1, 0, 0, 0⟩,
       ⟨2024, 2, 1, 0, 0, 0⟩, ⟨2024, 3, 1, 0, 0, 0⟩]) ∧
    (get_start_dates_for_date_range ⟨2023, 11, 1, 0, 0, 0⟩
        ⟨2024, 4, 2, 0, 0, 0⟩ =
      [⟨2023, 11, 1, 0, 0, 0⟩, ⟨2023, 12, 1, 0, 0, 0⟩, ⟨2024, 1, 1, 0, 0, 0⟩,
       ⟨2024, 2, 1, 0, 0, 0⟩, ⟨2024, 3, 1, 0, 0, 0⟩,
       ⟨2024, 4, 1, 0, 0, 0⟩]) ∧
    (∀ s e : Datetime, ∀ y : Nat, ValidMonth s → ValidMonth e →
      mIdx (round_to_start_of_month s) ≤ 12 * y + 12 →
      12 * y + 14 ≤
        mIdx (if e ≠ round_to_start_of_month e then round_to_next_month e
          else e) →
      (⟨y, 12, 1, 0, 0, 0⟩ : Datetime) ∈
        get_start_dates_for_date_range s e ∧
      (⟨y + 1, 1, 1, 0, 0, 0⟩ : Datetime) ∈
        get_start_dates_for_date_range s e) ∧
    (∀ s e : Datetime, ValidMonth s →
      ∀ d ∈ get_start_dates_for_date_range s e,
        1 ≤ d.month ∧ d.month ≤ 12) := by
  refine ⟨?_, ?_, ?_, ?_, ?_⟩
  · simp only [get_start_dates_for_date_range]
    simp +decide [monthStartsLoop_eq, round_to_next_month,
      round_to_start_of_month]
  · simp only [get_start_dates_for_date_range]
    simp +decide [monthStartsLoop_eq, round_to_next_month,
      round_to_start_of_month]
  · simp only [get_start_dates_for_date_range]
    simp +decide [monthStartsLoop_eq, round_to_next_month,
      round_to_start_of_month]
  · intro s e y hs he h1 h2
    simp only [get_start_dates_for_date_range]
    have hE1 : IsMonthStart
        (if e ≠ round_to_start_of_month e then round_to_next_month e
          else e) := by
      by_cases heq : e ≠ round_to_start_of_month e
      · rw [if_pos heq]; exact isMonthStart_round_next e
      · rw [if_neg heq]
        rw [not_not] at heq
        rw [heq]
        exact isMonthStart_round_start e
    have hE2 : ValidMonth
        (if e ≠ round_to_start_of_month e then round_to_next_month e
          else e) := by
      by_cases heq : e ≠ round_to_start_of_month e
      · rw [if_pos heq]; exact validMonth_round_next e
      · rw [if_neg heq]; exact he
    constructor
    · exact monthStartsLoop_mem_of (isMonthStart_round_start s)
        (validMonth_round_start hs) ⟨rfl, rfl, rfl, rfl⟩
        ⟨by norm_num, by norm_num⟩ hE1 hE2
        (by simpa [mIdx] using h1) (by simp only [mIdx] at h2 ⊢; omega)
    · exact monthStartsLoop_mem_of (isMonthStart_round_start s)
        (validMonth_round_start hs) ⟨rfl, rfl, rfl, rfl⟩
        ⟨by norm_num, by norm_num⟩ hE1 hE2
        (by simp only [mIdx] at h1 ⊢; omega)
        (by simp only [mIdx] at h2 ⊢; omega)
  · intro s e hs d hd
    simp only [get_start_dates_for_date_range] at hd
    exact (monthStartsLoop_valid _ _ (isMonthStart_round_start s)
      (validMonth_round_start hs) d hd).2

/-- Witness for C4's general December-to-January part at a concrete range:
November 5, 2023 to February 10, 2024 contains January 1, 2024. -/
theorem claim_C4_partitioner_witness :
    (⟨2024, 1, 1, 0, 0, 0⟩ : Datetime) ∈
      get_start_dates_for_date_range ⟨2023, 11, 5, 0, 0, 0⟩
        ⟨2024, 2, 10, 0, 0, 0⟩ :=
  (claim_C4_partitioner.2.2.2.1 ⟨2023, 11, 5, 0, 0, 0⟩ ⟨2024, 2, 10, 0, 0, 0⟩
    2023 ⟨by decide, by decide⟩ ⟨by decide, by decide⟩ (by decide)
    (by decide)).2

/-- Counterexample to C10 as stated: for `start = 2023-06-20 >
end = 2023-06-10` the partitioner does not return the empty list — it
returns the single containing month start. -/
theorem claim_C10_counterexample :
    dtLt ⟨2023, 6, 10, 0, 0, 0⟩ ⟨2023, 6, 20, 0, 0, 0⟩ = true ∧
    get_start_dates_for_date_range ⟨2023, 6, 20, 0, 0, 0⟩
        ⟨2023, 6, 10, 0, 0, 0⟩ = [⟨2023, 6, 1, 0, 0, 0⟩] := by
  constructor
  · decide
  · simp only [get_start_dates_for_date_range]
    simp +decide [monthStartsLoop_eq, round_to_next_month,
      round_to_start_of_month]

/-- C10 as amended: for `start > end` the partitioner returns the empty
list unless the two instants lie in the same calendar month with `end` not
a month boundary, in which case it returns the singleton of that month's
start; when `start = end` lies exactly on a month boundary it returns the
empty list; and `download_netcdf_range` over an empty chunk list issues no
request and writes nothing.  No error is raised in any of these cases. -/
theorem claim_C10_degenerate :
    (∀ s e : Datetime, ValidMonth s → ValidMonth e → dtLt e s = true →
      ((mIdx s ≠ mIdx e ∨ e = round_to_start_of_month e) →
        get_start_dates_for_date_range s e = []) ∧
      ((mIdx s = mIdx e ∧ e ≠ round_to_start_of_month e) →
        get_start_dates_for_date_range s e =
          [round_to_start_of_month s])) ∧
    (∀ s : Datetime, ValidMonth s → s = round_to_start_of_month s →
      get_start_dates_for_date_range s s = []) ∧
    (∀ (tabledap_url : String) (s e : Datetime) (destination_dir : String)
        (existing : Option (String → Option Datetime)) (verbose force : Bool)
        (oracle : String → Response),
      get_start_dates_for_date_range s e = [] →
      download_netcdf_range tabledap_url s e destination_dir existing
        verbose force oracle = ([], none)) := by
  refine ⟨?_, ?_, ?_⟩
  · intro s e hs he hlt
    have hm : mIdx e ≤ mIdx s := mIdx_le_of_dtLt hlt he hs
    by_cases heq : e = round_to_start_of_month e
    · have hout : get_start_dates_for_date_range s e = [] := by
        simp only [get_start_dates_for_date_range]
        rw [if_neg (not_not_intro heq), monthStartsLoop_eq, if_neg]
        intro hg
        rw [dtLe_monthStart_iff (isMonthStart_round_next _)
          (heq ▸ isMonthStart_round_start e)
          (validMonth_round_next _) he,
          mIdx_round_next (validMonth_round_start hs),
          mIdx_round_start] at hg
        omega
      constructor
      · intro _; exact hout
      · rintro ⟨_, hne⟩; exact absurd heq hne
    · have hne : e ≠ round_to_start_of_month e := heq
      by_cases hsame : mIdx s = mIdx e
      · constructor
        · rintro (h | h)
          · exact absurd hsame h
          · exact absurd h hne
        · intro _
          simp only [get_start_dates_for_date_range]
          rw [if_pos hne, monthStartsLoop_eq, if_pos, monthStartsLoop_eq,
            if_neg]
          · intro hg
            rw [dtLe_monthStart_iff (isMonthStart_round_next _)
              (isMonthStart_round_next e)
              (validMonth_round_next _) (validMonth_round_next e),
              mIdx_round_next (validMonth_round_next _),
              mIdx_round_next (validMonth_round_start hs),
              mIdx_round_start, mIdx_round_next he] at hg
            omega
          · rw [dtLe_monthStart_iff (isMonthStart_round_next _)
              (isMonthStart_round_next e)
              (validMonth_round_next _) (validMonth_round_next e),
              mIdx_round_next (validMonth_round_start hs),
              mIdx_round_start, mIdx_round_next he]
            omega
      · constructor
        · intro _
          simp only [get_start_dates_for_date_range]
          rw [if_pos hne, monthStartsLoop_eq, if_neg]
          intro hg
          rw [dtLe_monthStart_iff (isMonthStart_round_next _)
            (isMonthStart_round_next e)
            (validMonth_round_next _) (validMonth_round_next e),
            mIdx_round_next (validMonth_round_start hs),
            mIdx_round_start, mIdx_round_next he] at hg
          omega
        · rintro ⟨h, _⟩; exact absurd h hsame
  · intro s hs hb
    simp only [get_start_dates_for_date_range]
    rw [if_neg (not_not_intro hb), monthStartsLoop_eq, if_neg]
    intro hg
    rw [dtLe_monthStart_iff (isMonthStart_round_next _)
      (hb ▸ isMonthStart_round_start s)
      (validMonth_round_next _) hs,
      mIdx_round_next (validMonth_round_start hs), mIdx_round_start] at hg
    omega
  · intro tabledap_url s e destination_dir existing verbose force oracle h
    simp only [download_netcdf_range, h, List.foldl_nil]

/-- Witness for C10's amended statement at concrete inputs: start and end
in different months with start after end gives the empty list, and the
range downloader then does nothing. -/
theorem claim_C10_degenerate_witness :
    get_start_dates_for_date_range ⟨2023, 6, 15, 0, 0, 0⟩
      ⟨2023, 3, 10, 0, 0, 0⟩ = [] :=
  (claim_C10_degenerate.1 ⟨2023, 6, 15, 0, 0, 0⟩ ⟨2023, 3, 10, 0, 0, 0⟩
    ⟨by decide, by decide⟩ ⟨by decide, by decide⟩ (by decide)).1
    (Or.inl (by decide))

/-- Counterexample to C8 as stated: with both directories absent and on
different devices, `run` does raise the configuration error, but only
after creating the archive directory and staging-parent directory — a
filesystem side effect precedes the abort, so the error does not abort
before any side effects occur. -/
theorem claim_C8_counterexample :
    (run "u" "bag" "tmp" "t0" none none false false
      ⟨fun p => if p = "tmp" then 1 else 0, false, false,
       (⟨2023, 1, 1, 0, 0, 0⟩, ⟨2023, 2, 1, 0, 0, 0⟩),
       ⟨false, [], 448, [], 448, [], 448, true⟩,
       fun _ => none, fun _ => ⟨200, []⟩⟩ =
      ([Ev.mkdir "bag", Ev.mkdir "tmp"], some RunErr.configError)) ∧
    Ev.isFsSideEffect (Ev.mkdir "bag") = true := by
  constructor
  · rfl
  · rfl

/-- C8 as amended: when the staging parent and the archive directory are
not on the same filesystem, `run` raises the configuration error before
any network activity; the only filesystem side effects that may precede the
check are the creation of the archive directory and of the staging-parent
directory when they do not already exist (they are created before the
check, and indeed must exist for the device comparison to be possible). -/
theorem claim_C8_same_fs_check (tabledap_url0 bag_directory tmp_parent
    tmpName : String) (requested_start requested_end : Option Datetime)
    (verbose force : Bool) (env : RunEnv)
    (h : are_same_fs env.stDev tmp_parent bag_directory = false) :
    (run tabledap_url0 bag_directory tmp_parent tmpName requested_start
        requested_end verbose force env =
      ((if env.bagDirExists then [] else [Ev.mkdir bag_directory]) ++
        (if env.tmpParentExists then [] else [Ev.mkdir tmp_parent]),
       some RunErr.configError)) ∧
    (∀ ev ∈ (run tabledap_url0 bag_directory tmp_parent tmpName
        requested_start requested_end verbose force env).1,
      ev.isNet = false) ∧
    (env.bagDirExists = true → env.tmpParentExists = true →
      (run tabledap_url0 bag_directory tmp_parent tmpName requested_start
        requested_end verbose force env).1 = []) := by
  have hr : run tabledap_url0 bag_directory tmp_parent tmpName
      requested_start requested_end verbose force env =
      ((if env.bagDirExists then [] else [Ev.mkdir bag_directory]) ++
        (if env.tmpParentExists then [] else [Ev.mkdir tmp_parent]),
       some RunErr.configError) := by
    simp only [run]
    rw [if_pos h]
  refine ⟨hr, ?_, ?_⟩
  · intro ev hmem
    rw [hr] at hmem
    simp only [List.mem_append] at hmem
    rcases hmem with h1 | h1 <;> split_ifs at h1 <;>
      simp only [List.mem_singleton, List.not_mem_nil] at h1 <;>
      first
      | exact absurd h1 (by simp)
      | (subst h1; rfl)
  · intro h1 h2
    rw [hr]
    simp [h1, h2]

/-- Witness for C8's amended statement: with both directories already
existing, the configuration error is raised with an empty side-effect
trace. -/
theorem claim_C8_same_fs_check_witness :
    run "u" "bag" "tmp" "t0" none none false false
      ⟨fun p => if p = "tmp" then 1 else 0, true, true,
       (⟨2023, 1, 1, 0, 0, 0⟩, ⟨2023, 2, 1, 0, 0, 0⟩),
       ⟨false, [], 448, [], 448, [], 448, true⟩,
       fun _ => none, fun _ => ⟨200, []⟩⟩ =
      ([], some RunErr.configError) := by
  have h := (claim_C8_same_fs_check "u" "bag" "tmp" "t0" none none false
    false
    ⟨fun p => if p = "tmp" then 1 else 0, true, true,
     (⟨2023, 1, 1, 0, 0, 0⟩, ⟨2023, 2, 1, 0, 0, 0⟩),
     ⟨false, [], 448, [], 448, [], 448, true⟩,
     fun _ => none, fun _ => ⟨200, []⟩⟩ rfl).1
  simpa using h

/-- Counterexample to C9 as stated: the `move_tmp_to_bag` of
`bagitify.py` — the copy `run` actually invokes — performs a
directory-level rename (no existing archive here) and leaves the renamed
directory with the staging directory's restrictive mode `0o700`, which is
neither readable nor traversable by others; no normalization happens. -/
theorem claim_C9_counterexample :
    ((BagitifyPy.move_tmp_to_bag "bag" "tmp"
      ⟨false, [], 493, [], 493, [("A.nc", ['a'])], 448, true⟩
      false false).1.rootMode = 448) ∧
    ((BagitifyPy.move_tmp_to_bag "bag" "tmp"
      ⟨false, [], 493, [], 493, [("A.nc", ['a'])], 448, true⟩
      false false).2.1 = [Ev.rename "tmp" "bag"]) ∧
    othersCanReadTraverse 448 = false := by
  refine ⟨rfl, rfl, rfl⟩

/-- C9 as amended: after every directory-level rename the merge of
`download.py` actually performs — the whole-directory rename onto an empty
marker-less archive directory, and the force rename onto the just-emptied
payload directory — the resulting directory's mode is normalized to
`0o755`, which others can read and traverse; when the marker-less directory
is non-empty no rename happens (`ENOTEMPTY` propagates before the chmod)
and the mode is unchanged; and the parallel merge in `bagitify.py` performs
no normalization at all. -/
theorem claim_C9_download_normalizes (bag_directory tmp_destination : String)
    (fs : BagFS) (verbose force : Bool) :
    (fs.marker = false → fs.rootFiles = [] → fs.data = [] →
      (Download.move_tmp_to_bag bag_directory tmp_destination fs
        verbose force).1.rootMode = 0o755) ∧
    (fs.marker = true → force = true →
      (Download.move_tmp_to_bag bag_directory tmp_destination fs
        verbose force).1.dataMode = 0o755) ∧
    (fs.marker = false → ¬(fs.rootFiles = [] ∧ fs.data = []) →
      (Download.move_tmp_to_bag bag_directory tmp_destination fs
          verbose force).1.rootMode = fs.rootMode ∧
      (Download.move_tmp_to_bag bag_directory tmp_destination fs
          verbose force).2.2 = some (OsErr.notEmpty bag_directory)) ∧
    othersCanReadTraverse 0o755 = true := by
  refine ⟨?_, ?_, ?_, rfl⟩
  · intro h hroot hdata
    simp [Download.move_tmp_to_bag, h, hroot, hdata]
  · intro h1 h2
    simp [Download.move_tmp_to_bag, h1, h2]
  · intro h hne
    constructor <;> simp [Download.move_tmp_to_bag, h, hne]

/-- Witness for C9's amended statement at a concrete state: the
`download.py` merge normalizes the renamed directory to `0o755`. -/
theorem claim_C9_download_normalizes_witness :
    (Download.move_tmp_to_bag "bag" "tmp"
      ⟨false, [], 493, [], 493, [("A.nc", ['a'])], 448, true⟩
      false false).1.rootMode = 0o755 :=
  (claim_C9_download_normalizes "bag" "tmp"
    ⟨false, [], 493, [], 493, [("A.nc", ['a'])], 448, true⟩
    false false).1 rfl rfl rfl

end Bagitify
